import Mathlib

/-!
Verification of the tw-mirror sync engine and HTTP surface.

The definitions below are a shallow embedding of the mirror server script:
timestamps are naturals (milliseconds, as `Date.now()` returns), the ISO
timestamp strings written by `new Date().toISOString()` are modelled by the
underlying millisecond value, the in-memory cache object `repoCache` is a
function from repository identifier to an optional cache entry, and the two
upstream axios calls of `updateRepo` are modelled by a `FetchOutcome` value
(both succeed with the fetched data, or the try block throws).
-/

namespace TwMirror

/-- Configuration constant: the mirror base URL (default value from the source). -/
def MIRROR_BASE : String := "https://gh.thfls.club/"

/-- Configuration constant `RETRY_DELAY = 5 * 60 * 1000` (5 minutes, in ms). -/
def RETRY_DELAY : Nat := 5 * 60 * 1000

/-- Configuration constant `MAX_RETRIES = process.env.MAX_RETRIES || 3`; the
functions below take it as an explicit parameter since it is configurable,
and this is its default value. -/
def MAX_RETRIES : Nat := 3

/-- Sync metadata `_syncMeta` embedded in a cache entry.  The source creates it
as `{ attempts: 0, nextRetry: null, lastSuccess: null, priority: 0 }`; `null`
is modelled as `none`. -/
structure SyncMeta where
  attempts : Nat
  nextRetry : Option Nat
  lastSuccess : Option Nat
  priority : Nat
deriving Repr, DecidableEq

/-- The default sync metadata object used by `updateRepo` when the cache entry
has no `_syncMeta` field. -/
def initSyncMeta : SyncMeta :=
  { attempts := 0, nextRetry := none, lastSuccess := none, priority := 0 }

/-- A mapped release asset as stored in the cache:
`{ name: a.name, download_url: a.browser_download_url }`. -/
structure Asset where
  name : String
  download_url : String
deriving Repr, DecidableEq

/-- The `meta` sub-object of a cache entry. -/
structure RepoMeta where
  stars : Nat
  description : Option String
  language : Option String
  last_commit : Option String
deriving Repr, DecidableEq

/-- A cache entry of `repoCache`.  Every field may be absent (`none`): an entry
created by a failed first sync is `{ last_error: ..., _syncMeta: ... }` and in
particular has no `version`, `assets`, `updated_at` or `meta` field. -/
structure CacheEntry where
  version : Option String := none
  assets : Option (List Asset) := none
  updated_at : Option Nat := none
  meta : Option RepoMeta := none
  last_error : Option Nat := none
  _syncMeta : Option SyncMeta := none
deriving Repr, DecidableEq

/-- The in-memory cache `repoCache`: a map from `owner/name` to its entry. -/
abbrev Cache := String → Option CacheEntry

/-- Assignment `repoCache[repo] = entry` (the subsequent `saveCache()` is pure
persistence of the same state and is not modelled separately). -/
def Cache.set (c : Cache) (k : String) (v : CacheEntry) : Cache :=
  fun k' => if k' = k then some v else c k'

/-- The empty cache (fresh start, or `loadCache` on a missing file). -/
def emptyCache : Cache := fun _ => none

/-- JavaScript truthiness of an optional numeric field: `null`/absent and `0`
are falsy, any other number is truthy. -/
def truthyNum : Option Nat → Bool
  | none => false
  | some n => n != 0

/-- Repository metadata returned by the first upstream call (the fields of the
GitHub repo object that `updateRepo` reads). -/
structure RepoData where
  stargazers_count : Nat
  description : Option String
  language : Option String
  pushed_at : Option String
deriving Repr, DecidableEq

/-- A raw release asset as returned by the upstream release endpoint. -/
structure GhAsset where
  name : String
  browser_download_url : String
deriving Repr, DecidableEq

/-- Release metadata returned by the second upstream call. -/
structure ReleaseData where
  tag_name : String
  assets : List GhAsset
deriving Repr, DecidableEq

/-- Outcome of the two awaited axios calls inside `updateRepo`'s try block:
either both succeed with the fetched data, or the block throws (any of
NotFound / rate-limited / network failure — the catch treats them alike). -/
inductive FetchOutcome where
  | ok (repoData : RepoData) (releaseData : ReleaseData)
  | err
deriving Repr, DecidableEq

/-- `repo.split('/')`: split on the separator character, keeping empty parts
(as JavaScript's `String.prototype.split` does).  Stated over the character
list of the string so that it evaluates inside the kernel. -/
def jsSplit (s : String) (sep : Char) : List String :=
  (s.toList.splitOn sep).map String.mk

/-- `owner` from `const [owner, repoName] = repo.split('/')`; a missing part
is `undefined`, which behaves like the empty string under the `!owner` check. -/
def repoOwnerOf (repo : String) : String := (jsSplit repo '/').getD 0 ""

/-- `repoName` from `const [owner, repoName] = repo.split('/')`. -/
def repoNameOf (repo : String) : String := (jsSplit repo '/').getD 1 ""

/-- One call of `updateRepo(repo)` at time `now` with fetch outcome `fetch`.
Returns the cache after the call.  On `.ok`, the entry is replaced by a fresh
object literal (the old entry's fields, such as `last_error`, are not spread
into it) whose `_syncMeta` spreads the old one with `attempts: 0`,
`nextRetry: null`, `lastSuccess: Date.now()`.  On `.err`, the old entry is
spread (`{ ...cacheEntry, last_error, _syncMeta }`) with incremented
`attempts` and exponential `nextRetry`, overwritten by the 24-hour pause once
`attempts >= MAX_RETRIES`. -/
def updateRepo (maxRetries : Nat) (cache : Cache) (repo : String) (now : Nat)
    (fetch : FetchOutcome) : Cache :=
  if (repoOwnerOf repo).isEmpty || (repoNameOf repo).isEmpty then cache
  else
    let cacheEntry := (cache repo).getD {}
    let syncMeta := cacheEntry._syncMeta.getD initSyncMeta
    match fetch with
    | .ok repoData releaseData =>
        Cache.set cache repo
          { version := some releaseData.tag_name,
            assets := some (releaseData.assets.map fun a =>
              { name := a.name, download_url := a.browser_download_url }),
            updated_at := some now,
            meta := some { stars := repoData.stargazers_count,
                           description := repoData.description,
                           language := repoData.language,
                           last_commit := repoData.pushed_at },
            last_error := none,
            _syncMeta := some { syncMeta with
                                attempts := 0,
                                nextRetry := none,
                                lastSuccess := some now } }
    | .err =>
        let attempts1 := syncMeta.attempts + 1
        let expRetry := now + 2 ^ attempts1 * RETRY_DELAY
        let nextRetry1 :=
          if attempts1 ≥ maxRetries then now + 24 * 3600 * 1000 else expRetry
        Cache.set cache repo
          { cacheEntry with
            last_error := some now,
            _syncMeta := some { syncMeta with
                                attempts := attempts1,
                                nextRetry := some nextRetry1 } }

/-- The sync metadata read for a repository (`repoCache[repo]?._syncMeta` with
the usual `|| {...defaults}` fallback); used to state the theorems below. -/
def syncMetaOf (cache : Cache) (repo : String) : SyncMeta :=
  (((cache repo).getD {})._syncMeta).getD initSyncMeta

/-- `calculatePriority(repo, now)`: base term from `lastSuccess` (seconds of
staleness, or the 24h constant when never synced / falsy), plus the 48h retry
bonus when `meta.nextRetry && meta.nextRetry < now`.  The score is a rational
because of the division by 1000. -/
def calculatePriority (cache : Cache) (repo : String) (now : Nat) : ℚ :=
  let meta := ((cache repo).bind fun e => e._syncMeta).getD initSyncMeta
  let base : ℚ :=
    if truthyNum meta.lastSuccess then
      ((now : ℚ) - ((meta.lastSuccess.getD 0 : Nat) : ℚ)) / 1000
    else
      24 * 3600
  let bonus : ℚ :=
    if truthyNum meta.nextRetry ∧ meta.nextRetry.getD 0 < now then 48 * 3600
    else 0
  base + bonus

/-- The base term of `calculatePriority` alone (the score the function returns
when the retry-bonus condition does not hold). -/
def priorityBase (cache : Cache) (repo : String) (now : Nat) : ℚ :=
  let meta := ((cache repo).bind fun e => e._syncMeta).getD initSyncMeta
  if truthyNum meta.lastSuccess then
    ((now : ℚ) - ((meta.lastSuccess.getD 0 : Nat) : ℚ)) / 1000
  else
    24 * 3600

/-- An element of the queue built by `getSyncQueue`. -/
structure QueueItem where
  repo : String
  priority : ℚ
  isRetry : Bool
deriving Repr, DecidableEq

/-- The unsorted queue: the repository list mapped to
`{ repo, priority: calculatePriority(repo, now), isRetry: meta.attempts > 0 }`. -/
def syncQueueItems (repos : List String) (cache : Cache) (now : Nat) :
    List QueueItem :=
  repos.map fun repo =>
    let meta := ((cache repo).bind fun e => e._syncMeta).getD initSyncMeta
    { repo := repo,
      priority := calculatePriority cache repo now,
      isRetry := decide (0 < meta.attempts) }

/-- The comparator `(a, b) => b.priority - a.priority` of the source keeps `a`
before `b` exactly when the difference is non-positive, i.e. when
`b.priority ≤ a.priority`; JavaScript's `Array.prototype.sort` is stable. -/
def queueLE (a b : QueueItem) : Bool := decide (b.priority ≤ a.priority)

/-- `getSyncQueue()`: map the repository list to scored items and stable-sort
descending by priority.  No filtering happens here. -/
def getSyncQueue (repos : List String) (cache : Cache) (now : Nat) :
    List QueueItem :=
  (syncQueueItems repos cache now).mergeSort queueLE

/-- One iteration of the `smartSync` loop body for a dequeued repository:
`if (syncMeta.nextRetry && Date.now() < syncMeta.nextRetry) continue;` —
otherwise `await updateRepo(repo)`. -/
def smartSyncStep (maxRetries : Nat) (cache : Cache) (repo : String)
    (now : Nat) (fetch : FetchOutcome) : Cache :=
  let cacheEntry := (cache repo).getD {}
  let syncMeta := cacheEntry._syncMeta.getD initSyncMeta
  if truthyNum syncMeta.nextRetry ∧ now < syncMeta.nextRetry.getD 0 then cache
  else updateRepo maxRetries cache repo now fetch

/-- A whole `smartSync()` pass: fold the loop body over the queue (time and
fetch outcomes are supplied as oracles; the `nextRetry` gate is re-evaluated
on the current cache at each step, as in the source). -/
def smartSync (maxRetries : Nat) (repos : List String) (cache : Cache)
    (now : Nat) (fetch : String → FetchOutcome) : Cache :=
  (getSyncQueue repos cache now).foldl
    (fun c item => smartSyncStep maxRetries c item.repo now (fetch item.repo))
    cache

/-- Outcome of an HTTP route handler.  `notFound` stands for
`res.status(404).redirect('/404')`, which lands on the catch-all 404 page;
`jsError` stands for an exception thrown synchronously inside the handler
(Express turns it into a 500 response, not a 404). -/
inductive HttpResult where
  | redirect (location : String)
  | notFound
  | page (repo : String) (versionShown : String)
  | jsError (message : String)
deriving Repr, DecidableEq

/-- `GET /:owner/:repo/:filename`: the handler evaluates
`repoCache[repo]?.assets.find(a => a.name === filename)`.  Optional chaining
guards only `repoCache[repo]`; when the entry exists but has no `assets`
field, `.find` is called on `undefined` and the handler throws a TypeError. -/
def assetRoute (cache : Cache) (owner repoName filename : String) :
    HttpResult :=
  let repo := owner ++ "/" ++ repoName
  match cache repo with
  | none => .notFound
  | some entry =>
      match entry.assets with
      | none => .jsError "TypeError: assets is undefined"
      | some assets =>
          match assets.find? fun a => a.name == filename with
          | none => .notFound
          | some asset => .redirect (MIRROR_BASE ++ asset.download_url)

/-- The `versionDisplay` computation of the detail page. -/
def versionShownOf (version : String) : String :=
  if version.startsWith "v" then version else "v" ++ version

/-- JavaScript truthiness of an optional string field: absent and `""` are
falsy. -/
def strFalsy : Option String → Bool
  | none => true
  | some s => s.isEmpty

/-- `GET /:owner/:repo`: 404 when `!data || !data.version`, otherwise the
detail page is rendered. -/
def detailRoute (cache : Cache) (owner repoName : String) : HttpResult :=
  let repo := owner ++ "/" ++ repoName
  match cache repo with
  | none => .notFound
  | some data =>
      if strFalsy data.version then .notFound
      else .page repo (versionShownOf (data.version.getD ""))

/-! ## Helper lemmas -/

/-- Point lookup after an upsert of the same key. -/
theorem Cache.set_self (c : Cache) (k : String) (v : CacheEntry) :
    Cache.set c k v k = some v := by
  simp [Cache.set]

/-- The two ways the source reads a repository's sync metadata
(`(repoCache[repo] || {})._syncMeta || {...}` in `updateRepo`/`smartSync`,
`repoCache[repo]?._syncMeta || {}` in the scheduler) agree. -/
theorem bind_syncMeta_eq (cache : Cache) (repo : String) :
    ((cache repo).bind fun e => e._syncMeta).getD initSyncMeta =
      syncMetaOf cache repo := by
  unfold syncMetaOf
  cases cache repo <;> rfl

/-- What the failure path of `updateRepo` stores for a valid identifier. -/
theorem updateRepo_err_apply (maxRetries : Nat) (cache : Cache) (repo : String)
    (now : Nat)
    (hOwner : (repoOwnerOf repo).isEmpty = false)
    (hName : (repoNameOf repo).isEmpty = false) :
    updateRepo maxRetries cache repo now .err repo =
      some { (cache repo).getD {} with
             last_error := some now,
             _syncMeta := some
               { syncMetaOf cache repo with
                 attempts := (syncMetaOf cache repo).attempts + 1,
                 nextRetry := some
                   (if (syncMetaOf cache repo).attempts + 1 ≥ maxRetries then
                      now + 24 * 3600 * 1000
                    else
                      now + 2 ^ ((syncMetaOf cache repo).attempts + 1) * RETRY_DELAY) } } := by
  unfold updateRepo syncMetaOf
  rw [hOwner, hName]
  simp [Cache.set_self]

/-- What the success path of `updateRepo` stores for a valid identifier. -/
theorem updateRepo_ok_apply (maxRetries : Nat) (cache : Cache) (repo : String)
    (now : Nat) (rd : RepoData) (rel : ReleaseData)
    (hOwner : (repoOwnerOf repo).isEmpty = false)
    (hName : (repoNameOf repo).isEmpty = false) :
    updateRepo maxRetries cache repo now (.ok rd rel) repo =
      some { version := some rel.tag_name,
             assets := some (rel.assets.map fun a =>
               { name := a.name, download_url := a.browser_download_url }),
             updated_at := some now,
             meta := some { stars := rd.stargazers_count,
                            description := rd.description,
                            language := rd.language,
                            last_commit := rd.pushed_at },
             last_error := none,
             _syncMeta := some { syncMetaOf cache repo with
                                 attempts := 0,
                                 nextRetry := none,
                                 lastSuccess := some now } } := by
  unfold updateRepo syncMetaOf
  rw [hOwner, hName]
  simp [Cache.set_self]

/-! ## Claim theorems -/

/-- C1: for every repository and every count `k` of consecutive failures with
`1 ≤ k < MAX_RETRIES`, the failure handling in `updateRepo` sets `nextRetry`
so that `nextRetry - now = RETRY_DELAY * 2 ^ k`, where `k` is the attempts
count after the increment; this offset is strictly increasing in `k`. -/
theorem c1_exponential_backoff (maxRetries : Nat) (cache : Cache)
    (repo : String) (now k : Nat)
    (hOwner : (repoOwnerOf repo).isEmpty = false)
    (hName : (repoNameOf repo).isEmpty = false)
    (hk : (syncMetaOf cache repo).attempts + 1 = k)
    (hkmax : k < maxRetries) :
    (∃ e, updateRepo maxRetries cache repo now .err repo = some e ∧
      ∃ m, e._syncMeta = some m ∧ m.attempts = k ∧
        m.nextRetry = some (now + 2 ^ k * RETRY_DELAY)) ∧
    (∀ j j', 1 ≤ j → j < j' → 2 ^ j * RETRY_DELAY < 2 ^ j' * RETRY_DELAY) := by
  constructor
  · refine ⟨_, updateRepo_err_apply maxRetries cache repo now hOwner hName,
      _, rfl, hk, ?_⟩
    rw [hk, if_neg (by omega)]
  · intro j j' _ hj
    have h2 : (2 : Nat) ^ j < 2 ^ j' := Nat.pow_lt_pow_right (by norm_num) hj
    have hd : 0 < RETRY_DELAY := by norm_num [RETRY_DELAY]
    exact Nat.mul_lt_mul_of_lt_of_le h2 (Nat.le_refl _) hd

/-- C1 witness: first failure on a fresh repository `a/b` with the default
`MAX_RETRIES = 3` puts `nextRetry` at `now + 2 ^ 1 * RETRY_DELAY`. -/
theorem c1_exponential_backoff_witness :
    (∃ e, updateRepo 3 emptyCache "a/b" 0 .err "a/b" = some e ∧
      ∃ m, e._syncMeta = some m ∧ m.attempts = 1 ∧
        m.nextRetry = some (0 + 2 ^ 1 * RETRY_DELAY)) ∧
    (∀ j j', 1 ≤ j → j < j' → 2 ^ j * RETRY_DELAY < 2 ^ j' * RETRY_DELAY) :=
  c1_exponential_backoff 3 emptyCache "a/b" 0 1 (by decide) (by decide)
    (by decide) (by decide)

/-- C2: whenever a failure in `updateRepo` brings `attempts` to at least
`MAX_RETRIES`, `nextRetry` is set to the fixed 24-hour pause instead of the
exponential value, and a failure always increments `attempts` (never resets
it). -/
theorem c2_retry_ceiling (maxRetries : Nat) (cache : Cache) (repo : String)
    (now a : Nat)
    (hOwner : (repoOwnerOf repo).isEmpty = false)
    (hName : (repoNameOf repo).isEmpty = false)
    (ha : (syncMetaOf cache repo).attempts = a)
    (hmax : maxRetries ≤ a + 1) :
    ∃ e, updateRepo maxRetries cache repo now .err repo = some e ∧
      ∃ m, e._syncMeta = some m ∧ m.attempts = a + 1 ∧
        m.nextRetry = some (now + 24 * 3600 * 1000) := by
  refine ⟨_, updateRepo_err_apply maxRetries cache repo now hOwner hName,
    _, rfl, by rw [ha], ?_⟩
  rw [ha, if_pos hmax]

/-- C2 witness: with `MAX_RETRIES = 3`, the third consecutive failure of
`c/d` yields `nextRetry = now + 24h`, not `now + 2 ^ 3 * RETRY_DELAY`. -/
theorem c2_retry_ceiling_witness :
    (∃ e, updateRepo 3
        (Cache.set emptyCache "c/d"
          { last_error := some 900,
            _syncMeta := some { attempts := 2, nextRetry := some 999,
                                lastSuccess := none, priority := 0 } })
        "c/d" 1000 .err "c/d" = some e ∧
      ∃ m, e._syncMeta = some m ∧ m.attempts = 2 + 1 ∧
        m.nextRetry = some (1000 + 24 * 3600 * 1000)) ∧
    (1000 + 24 * 3600 * 1000 ≠ 1000 + 2 ^ 3 * RETRY_DELAY) :=
  ⟨c2_retry_ceiling 3
      (Cache.set emptyCache "c/d"
        { last_error := some 900,
          _syncMeta := some { attempts := 2, nextRetry := some 999,
                              lastSuccess := none, priority := 0 } })
      "c/d" 1000 2 (by decide) (by decide) (by decide) (by decide),
    by decide⟩

/-- C3: for every prior state, a successful run of `updateRepo` writes a
cache entry with `attempts = 0`, `nextRetry` cleared, `lastSuccess = now`,
`updated_at = now`, and fresh `version`, `assets` and `meta`. -/
theorem c3_success_resets (maxRetries : Nat) (cache : Cache) (repo : String)
    (now : Nat) (rd : RepoData) (rel : ReleaseData)
    (hOwner : (repoOwnerOf repo).isEmpty = false)
    (hName : (repoNameOf repo).isEmpty = false) :
    updateRepo maxRetries cache repo now (.ok rd rel) repo =
      some { version := some rel.tag_name,
             assets := some (rel.assets.map fun a =>
               { name := a.name, download_url := a.browser_download_url }),
             updated_at := some now,
             meta := some { stars := rd.stargazers_count,
                            description := rd.description,
                            language := rd.language,
                            last_commit := rd.pushed_at },
             last_error := none,
             _syncMeta := some { attempts := 0,
                                 nextRetry := none,
                                 lastSuccess := some now,
                                 priority := (syncMetaOf cache repo).priority } } :=
  updateRepo_ok_apply maxRetries cache repo now rd rel hOwner hName

/-- A cache holding one entry for `a/b` that has failed twice; input of the
C3 witness. -/
def c3wcache : Cache :=
  Cache.set emptyCache "a/b"
    { last_error := some 900,
      _syncMeta := some { attempts := 2, nextRetry := some 999,
                          lastSuccess := some 1, priority := 0 } }

/-- C3 witness: a success for `a/b` after two failures resets the sync
metadata and stores the fetched release data. -/
theorem c3_success_resets_witness :
    updateRepo 3 c3wcache "a/b" 1000
        (.ok ⟨7, some "d", some "js", some "t"⟩
             ⟨"2.0.0", [⟨"x.zip", "https://github.com/a/b/x.zip"⟩]⟩) "a/b" =
      some { version := some "2.0.0",
             assets := some [{ name := "x.zip",
                               download_url := "https://github.com/a/b/x.zip" }],
             updated_at := some 1000,
             meta := some { stars := 7, description := some "d",
                            language := some "js", last_commit := some "t" },
             last_error := none,
             _syncMeta := some { attempts := 0, nextRetry := none,
                                 lastSuccess := some 1000, priority := 0 } } :=
  c3_success_resets 3 c3wcache "a/b" 1000
    ⟨7, some "d", some "js", some "t"⟩
    ⟨"2.0.0", [⟨"x.zip", "https://github.com/a/b/x.zip"⟩]⟩
    (by decide) (by decide)

/-- C7: a failed sync attempt merges into the existing entry: `version`,
`assets`, `meta` and `updated_at` all survive unchanged; only `last_error`
and `_syncMeta` are rewritten. -/
theorem c7_failure_merges (maxRetries : Nat) (cache : Cache) (repo : String)
    (now : Nat) (e : CacheEntry) (he : cache repo = some e) :
    ∃ e', updateRepo maxRetries cache repo now .err repo = some e' ∧
      e'.version = e.version ∧ e'.assets = e.assets ∧ e'.meta = e.meta ∧
      e'.updated_at = e.updated_at := by
  unfold updateRepo
  by_cases h : ((repoOwnerOf repo).isEmpty || (repoNameOf repo).isEmpty) = true
  · rw [if_pos h]
    exact ⟨e, he, rfl, rfl, rfl, rfl⟩
  · rw [if_neg h]
    simp only [he, Option.getD_some]
    exact ⟨_, Cache.set_self .., rfl, rfl, rfl, rfl⟩

/-- C7 witness: a failure of `a/b` at time 1000 keeps the previously synced
`version`, `assets`, `meta` and `updated_at` of its entry. -/
theorem c7_failure_merges_witness :
    ∃ e', updateRepo 3
        (Cache.set emptyCache "a/b"
          { version := some "1.0", assets := some [⟨"x.zip", "u"⟩],
            updated_at := some 50,
            meta := some { stars := 3, description := none, language := none,
                           last_commit := none },
            last_error := none,
            _syncMeta := some { attempts := 0, nextRetry := none,
                                lastSuccess := some 50, priority := 0 } })
        "a/b" 1000 .err "a/b" = some e' ∧
      e'.version = some "1.0" ∧ e'.assets = some [⟨"x.zip", "u"⟩] ∧
      e'.meta = some { stars := 3, description := none, language := none,
                       last_commit := none } ∧
      e'.updated_at = some 50 :=
  c7_failure_merges 3
    (Cache.set emptyCache "a/b"
      { version := some "1.0", assets := some [⟨"x.zip", "u"⟩],
        updated_at := some 50,
        meta := some { stars := 3, description := none, language := none,
                       last_commit := none },
        last_error := none,
        _syncMeta := some { attempts := 0, nextRetry := none,
                            lastSuccess := some 50, priority := 0 } })
    "a/b" 1000
    { version := some "1.0", assets := some [⟨"x.zip", "u"⟩],
      updated_at := some 50,
      meta := some { stars := 3, description := none, language := none,
                     last_commit := none },
      last_error := none,
      _syncMeta := some { attempts := 0, nextRetry := none,
                          lastSuccess := some 50, priority := 0 } }
    (by decide)

/-- A cache whose entry for `a/b` carries a `last_error` timestamp and synced
data; input of the C8 counterexample. -/
def c8cache : Cache :=
  Cache.set emptyCache "a/b"
    { version := some "1.0", assets := some [], updated_at := some 50,
      meta := none, last_error := some 111,
      _syncMeta := some { attempts := 1, nextRetry := some 222,
                          lastSuccess := some 40, priority := 0 } }

/-- C8 counterexample: the entry for `a/b` carries `last_error = 111`, yet
after a subsequent successful sync the stored entry has no `last_error` —
the success path writes a fresh object and does not retain the field. -/
theorem c8_counterexample :
    ((c8cache "a/b").map fun e => e.last_error) = some (some 111) ∧
    ((updateRepo 3 c8cache "a/b" 1000
        (.ok ⟨5, none, none, none⟩ ⟨"2.0", []⟩) "a/b").map
      fun e => e.last_error) = some none := by
  decide

/-- C8 amended: a subsequent successful sync does not retain `last_error`:
the entry written on success has no `last_error` field (it is dropped until a
newer failure sets it again). -/
theorem c8_amended_success_drops_last_error (maxRetries : Nat) (cache : Cache)
    (repo : String) (now : Nat) (rd : RepoData) (rel : ReleaseData)
    (hOwner : (repoOwnerOf repo).isEmpty = false)
    (hName : (repoNameOf repo).isEmpty = false) :
    ∃ e, updateRepo maxRetries cache repo now (.ok rd rel) repo = some e ∧
      e.last_error = none :=
  ⟨_, updateRepo_ok_apply maxRetries cache repo now rd rel hOwner hName, rfl⟩

/-- C8 witness: the successful sync of the counterexample's cache indeed
stores an entry with `last_error` absent. -/
theorem c8_amended_success_drops_last_error_witness :
    ∃ e, updateRepo 3 c8cache "a/b" 1000
        (.ok ⟨5, none, none, none⟩ ⟨"2.0", []⟩) "a/b" = some e ∧
      e.last_error = none :=
  c8_amended_success_drops_last_error 3 c8cache "a/b" 1000
    ⟨5, none, none, none⟩ ⟨"2.0", []⟩ (by decide) (by decide)


/-- A cache whose entry for `a/b` has `nextRetry = 1000` and was never
successfully synced; input of the C4 counterexample. -/
def c4cache : Cache :=
  Cache.set emptyCache "a/b"
    { _syncMeta := some { attempts := 1, nextRetry := some 1000,
                          lastSuccess := none, priority := 0 } }

/-- C4 counterexample: at `now = nextRetry = 1000` the claim asserts the
retry bonus is included, but `calculatePriority` returns only the base term
(the source requires `nextRetry < now` strictly). -/
theorem c4_counterexample :
    (syncMetaOf c4cache "a/b").nextRetry = some 1000 ∧
    (1000 : Nat) ≤ 1000 ∧
    calculatePriority c4cache "a/b" 1000 = priorityBase c4cache "a/b" 1000 ∧
    priorityBase c4cache "a/b" 1000 + 48 * 3600 ≠ priorityBase c4cache "a/b" 1000 := by
  refine ⟨by decide, by decide, ?_, ?_⟩
  · simp [calculatePriority, priorityBase, c4cache, Cache.set, emptyCache,
      truthyNum, initSyncMeta]
  · intro h
    have : (48 * 3600 : ℚ) = 0 := by linarith
    norm_num at this

/-- C4 amended: `calculatePriority` includes the 48-hour retry bonus exactly
when `nextRetry` is non-null, non-zero and strictly less than `now`; at
`nextRetry = now` and at `nextRetry = 0` the bonus is not included. -/
theorem c4_amended_bonus_iff (cache : Cache) (repo : String) (now : Nat) :
    (calculatePriority cache repo now = priorityBase cache repo now + 48 * 3600 ↔
      ∃ nr, (syncMetaOf cache repo).nextRetry = some nr ∧ nr ≠ 0 ∧ nr < now) ∧
    (calculatePriority cache repo now = priorityBase cache repo now ↔
      ¬ ∃ nr, (syncMetaOf cache repo).nextRetry = some nr ∧ nr ≠ 0 ∧ nr < now) := by
  have hb : (48 * 3600 : ℚ) ≠ 0 := by norm_num
  have key : calculatePriority cache repo now =
      priorityBase cache repo now +
        (if truthyNum (syncMetaOf cache repo).nextRetry ∧
            (syncMetaOf cache repo).nextRetry.getD 0 < now then (48 * 3600 : ℚ)
         else 0) := by
    simp only [calculatePriority, priorityBase, bind_syncMeta_eq]
  have hcond : (truthyNum (syncMetaOf cache repo).nextRetry = true ∧
      (syncMetaOf cache repo).nextRetry.getD 0 < now) ↔
      (∃ nr, (syncMetaOf cache repo).nextRetry = some nr ∧ nr ≠ 0 ∧ nr < now) := by
    cases hnr : (syncMetaOf cache repo).nextRetry with
    | none => simp [truthyNum]
    | some nr => simp [truthyNum, bne_iff_ne]
  constructor
  · constructor
    · intro h
      by_contra hx
      rw [key, if_neg (fun c => hx (hcond.mp c)), add_zero] at h
      exact hb (by linarith)
    · intro hx
      rw [key, if_pos (hcond.mpr hx)]
  · constructor
    · intro h hx
      rw [key, if_pos (hcond.mpr hx)] at h
      exact hb (by linarith)
    · intro hx
      rw [key, if_neg (fun c => hx (hcond.mp c)), add_zero]


/-- C6: in the `smartSync` loop body, a repository whose `nextRetry` is set
(non-zero) and still in the future at dequeue time is skipped with the cache
left completely unchanged, while `nextRetry` absent (`null`) or `0` means the
repository is eligible and `updateRepo` is attempted. -/
theorem c6_cooldown_skip (maxRetries : Nat) (cache : Cache) (repo : String)
    (now : Nat) (fetch : FetchOutcome) :
    (∀ nr, (syncMetaOf cache repo).nextRetry = some nr → nr ≠ 0 → now < nr →
      smartSyncStep maxRetries cache repo now fetch = cache) ∧
    (((syncMetaOf cache repo).nextRetry = none ∨
        (syncMetaOf cache repo).nextRetry = some 0) →
      smartSyncStep maxRetries cache repo now fetch =
        updateRepo maxRetries cache repo now fetch) := by
  constructor
  · intro nr hnr h0 hlt
    unfold smartSyncStep
    rw [if_pos ?_]
    unfold syncMetaOf at hnr
    rw [hnr]
    exact ⟨by simp [truthyNum, bne_iff_ne, h0], by simpa using hlt⟩
  · intro h
    unfold smartSyncStep
    rw [if_neg ?_]
    unfold syncMetaOf at h
    rcases h with h | h <;> rw [h] <;> simp [truthyNum]

/-- C10: `GET /{owner}/{repo}` responds 404 exactly when there is no cache
entry for `owner/repo` or the entry records no (truthy) version; otherwise
the detail page is served. -/
theorem c10_detail_404 (cache : Cache) (owner repoName : String) :
    (detailRoute cache owner repoName = .notFound ↔
      cache (owner ++ "/" ++ repoName) = none ∨
      ∃ data, cache (owner ++ "/" ++ repoName) = some data ∧
        strFalsy data.version = true) ∧
    (∀ data, cache (owner ++ "/" ++ repoName) = some data →
      strFalsy data.version = false →
      detailRoute cache owner repoName =
        .page (owner ++ "/" ++ repoName)
          (versionShownOf (data.version.getD ""))) := by
  unfold detailRoute
  cases h : cache (owner ++ "/" ++ repoName) with
  | none => simp [h]
  | some data =>
      cases hv : strFalsy data.version with
      | true => simp [h, hv]
      | false => simp [h, hv]


/-- Two-element evaluation of the stable merge sort. -/
theorem mergeSort_pair {α : Type} (a b : α) (le : α → α → Bool) :
    List.mergeSort [a, b] le = if le a b then [a, b] else [b, a] := by
  rw [List.mergeSort]
  simp [List.splitInTwo, List.merge]

/-- The queue comparator is transitive. -/
theorem queueLE_trans : ∀ (a b c : QueueItem),
    queueLE a b → queueLE b c → queueLE a c := by
  intro a b c hab hbc
  simp only [queueLE, decide_eq_true_eq] at *
  exact le_trans hbc hab

/-- The queue comparator is total. -/
theorem queueLE_total : ∀ (a b : QueueItem), queueLE a b || queueLE b a := by
  intro a b
  simp only [queueLE, Bool.or_eq_true, decide_eq_true_eq]
  exact le_total b.priority a.priority

/-- A cache where `a/b` was synced 10 minutes before `now = 10000000` and has
no pending retry; `c/d` has no entry.  Input of the C5 scenario. -/
def c5cache : Cache :=
  Cache.set emptyCache "a/b"
    { version := some "1.0", updated_at := some 9400000,
      _syncMeta := some { attempts := 0, nextRetry := none,
                          lastSuccess := some 9400000, priority := 0 } }

/-- C5: `getSyncQueue` returns exactly the repositories of the list (no
filtering), in descending priority order with ties kept in list order (the
sort is stable); in particular a never-synced repository (priority `24h`)
is ordered before one synced 10 minutes ago with no pending retry. -/
theorem c5_queue_order :
    (∀ (repos : List String) (cache : Cache) (now : Nat),
      ((getSyncQueue repos cache now).map QueueItem.repo).Perm repos ∧
      (getSyncQueue repos cache now).Pairwise
        (fun a b => b.priority ≤ a.priority) ∧
      (∀ c : List QueueItem, c.Sublist (syncQueueItems repos cache now) →
        c.Pairwise (fun a b => a.priority = b.priority) →
        c.Sublist (getSyncQueue repos cache now))) ∧
    (getSyncQueue ["a/b", "c/d"] c5cache 10000000).map QueueItem.repo =
      ["c/d", "a/b"] := by
  constructor
  · intro repos cache now
    refine ⟨?_, ?_, ?_⟩
    · have h := (List.mergeSort_perm (syncQueueItems repos cache now)
        queueLE).map QueueItem.repo
      have h2 : (syncQueueItems repos cache now).map QueueItem.repo = repos := by
        simp [syncQueueItems, Function.comp_def]
      rw [getSyncQueue]
      rw [h2] at h
      exact h
    · have h := List.sorted_mergeSort queueLE_trans queueLE_total
        (syncQueueItems repos cache now)
      rw [getSyncQueue]
      exact h.imp (fun hab => by simpa [queueLE] using hab)
    · intro c hsub hpw
      rw [getSyncQueue]
      refine List.sublist_mergeSort queueLE_trans queueLE_total ?_ hsub
      exact hpw.imp (fun hab => by simp [queueLE, le_of_eq hab.symm])
  · have hA : calculatePriority c5cache "a/b" 10000000 = 600 := by
      simp [calculatePriority, c5cache, Cache.set, emptyCache, truthyNum]
      norm_num
    have hC : calculatePriority c5cache "c/d" 10000000 = 24 * 3600 := by
      simp [calculatePriority, c5cache, Cache.set, emptyCache, truthyNum,
        initSyncMeta]
    have hitems : syncQueueItems ["a/b", "c/d"] c5cache 10000000 =
        [{ repo := "a/b", priority := 600, isRetry := false },
         { repo := "c/d", priority := 24 * 3600, isRetry := false }] := by
      simp only [syncQueueItems, List.map_cons, List.map_nil, hA, hC]
      simp [c5cache, Cache.set, emptyCache, initSyncMeta]
    rw [getSyncQueue, hitems, mergeSort_pair, if_neg ?_]
    · rfl
    · simp only [queueLE, decide_eq_true_eq]
      norm_num


/-- The cache produced by a failed first sync of `o/r`: its entry has
`last_error` and `_syncMeta` but no `assets` field.  Failing input of C9. -/
def c9cache : Cache := updateRepo 3 emptyCache "o/r" 1000 .err

/-- C9: the claim predicts a 404 for a filename request against an entry
created only by failed syncs, but the handler evaluates
`repoCache[repo]?.assets.find(...)` whose optional chaining does not guard
`.assets`, so the handler throws a TypeError (an Express 500, not a 404).
The redirect branch for a known asset behaves as claimed. -/
theorem c9_failed_entry_crashes :
    ((c9cache "o/r").map fun e => e.assets) = some none ∧
    assetRoute c9cache "o" "r" "file.zip" =
      .jsError "TypeError: assets is undefined" ∧
    assetRoute c9cache "o" "r" "file.zip" ≠ .notFound ∧
    assetRoute (updateRepo 3 emptyCache "o/r" 1000
        (.ok ⟨1, none, none, none⟩
             ⟨"v1", [⟨"file.zip", "https://github.com/o/r/x.zip"⟩]⟩))
      "o" "r" "file.zip" =
      .redirect (MIRROR_BASE ++ "https://github.com/o/r/x.zip") ∧
    assetRoute emptyCache "o" "r" "file.zip" = .notFound := by
  decide

end TwMirror
